import Mathlib

/-!
Verification development for the EduChain MCP server
(`educhain_mcp_server.py`).

The server is a thin gateway: each operation validates its inputs, makes at
most one call to an external generation engine (the `educhain` library's
`qna_engine.generate_questions` or `content_engine.generate_lesson_plan`),
reshapes the engine's structured response into a plain mapping or a text
block, and converts any raised exception into a failure value.

Embedding conventions:
* The external engine is a parameter of every operation: a pair of functions
  from the request records actually sent by the server to `Except String`
  responses (`Except.error` models a raised exception, the `String` being
  the exception's message).
* Each operation returns its result together with the list of engine calls
  it made, so that "no external call is made" and "called with these
  arguments" are provable statements.
* Python dictionaries with a `success` flag are modelled as two-constructor
  inductives: the `ok` constructor is the `success: True` mapping, the
  `err` constructor the `{success: False, error, topic}` mapping.
* Python's `not topic.strip()` test is modelled by `isBlank`: the string is
  empty or consists only of whitespace characters.
-/

namespace EduChain

/-- One question object produced by the qna engine
(`q.question`, `q.options`, `q.correct_answer`, `q.explanation`). -/
structure Question where
  question : String
  options : List String
  correct_answer : String
  explanation : String
deriving Repr, DecidableEq

/-- The qna engine's response object; the server reads `questions.questions`. -/
structure QuestionList where
  questions : List Question
deriving Repr, DecidableEq

/-- The lesson-plan object produced by the content engine. -/
structure LessonPlan where
  title : String
  objectives : List String
  materials : List String
  introduction : String
  main_content : String
  activities : List String
  assessment : String
  conclusion : String
deriving Repr, DecidableEq

/-- The keyword arguments the server passes to
`qna_engine.generate_questions`.  `custom_instructions` and
`prompt_template` are `Option`s because some call sites omit them. -/
structure QnaRequest where
  topic : String
  num : Int
  question_type : String
  difficulty_level : String
  custom_instructions : Option String
  prompt_template : Option String
deriving Repr, DecidableEq

/-- The keyword arguments the server passes to
`content_engine.generate_lesson_plan`.  `learning_objectives` is an
`Option` because `get_topic_overview` omits it. -/
structure LessonRequest where
  topic : String
  duration : String
  grade_level : String
  learning_objectives : Option (List String)
deriving Repr, DecidableEq

/-- A record of one outbound call to the external engine. -/
inductive EngineCall where
  | qna (req : QnaRequest)
  | lesson (req : LessonRequest)
deriving Repr, DecidableEq

/-- The external engine: both generation entry points, each either
returning a response or raising (modelled by `Except.error msg`). -/
structure Engine where
  generate_questions : QnaRequest → Except String QuestionList
  generate_lesson_plan : LessonRequest → Except String LessonPlan

/-- `not topic.strip()` in Python: true iff the string is empty or
all-whitespace. -/
def isBlank (s : String) : Bool :=
  s.data.all Char.isWhitespace

/-- One entry of the `questions` list in `generate_mcq`'s success mapping. -/
structure McqItem where
  question_number : Nat
  question : String
  options : List String
  correct_answer : String
  explanation : String
deriving Repr, DecidableEq

/-- The mapping returned by `generate_mcq`: either the success dict
(`success: True`) or the failure dict (`success: False, error, topic`). -/
inductive McqResult where
  | ok (topic : String) (num_questions : Nat) (difficulty_level : String)
      (questions : List McqItem)
  | err (error : String) (topic : String)
deriving Repr, DecidableEq

/-- The `success` field of the mapping returned by `generate_mcq`. -/
def McqResult.success : McqResult → Bool
  | .ok _ _ _ _ => true
  | .err _ _ => false

/-- The mapping returned by `generate_lesson_plan`. -/
inductive LessonPlanResult where
  | ok (topic : String) (duration : String) (grade_level : String)
      (lesson_plan : LessonPlan)
  | err (error : String) (topic : String)
deriving Repr, DecidableEq

/-- The `success` field of the mapping returned by `generate_lesson_plan`. -/
def LessonPlanResult.success : LessonPlanResult → Bool
  | .ok _ _ _ _ => true
  | .err _ _ => false

/-- One entry of the `flashcards` list in `generate_flashcards`'s
success mapping. -/
structure Flashcard where
  card_number : Nat
  front : String
  back : String
  category : String
  difficulty : String
deriving Repr, DecidableEq

/-- The mapping returned by `generate_flashcards`. -/
inductive FlashcardsResult where
  | ok (topic : String) (num_cards : Nat) (difficulty_level : String)
      (card_type : String) (flashcards : List Flashcard)
  | err (error : String) (topic : String)
deriving Repr, DecidableEq

/-- The `success` field of the mapping returned by `generate_flashcards`. -/
def FlashcardsResult.success : FlashcardsResult → Bool
  | .ok _ _ _ _ _ => true
  | .err _ _ => false

/-- `ValueError("Topic cannot be empty")`, raised by all three tools. -/
def topicEmptyMsg : String := "Topic cannot be empty"

/-- `ValueError("Number of questions must be between 1 and 10")`. -/
def numQuestionsRangeMsg : String := "Number of questions must be between 1 and 10"

/-- `ValueError("Number of cards must be between 1 and 20")`. -/
def numCardsRangeMsg : String := "Number of cards must be between 1 and 20"

/-- The qna request sent by `generate_mcq`. -/
def mcqRequest (topic : String) (num_questions : Int)
    (difficulty_level : String) (custom_instructions : String) : QnaRequest :=
  { topic := topic
    num := num_questions
    question_type := "Multiple Choice"
    difficulty_level := difficulty_level
    custom_instructions := some custom_instructions
    prompt_template := none }

/-- `generate_mcq(topic, num_questions, difficulty_level,
custom_instructions)`: validates the topic and the question count, calls
`qna_engine.generate_questions`, and re-keys the response 1-based; any
raised exception becomes the failure mapping. -/
def generate_mcq (engine : Engine) (topic : String) (num_questions : Int)
    (difficulty_level : String) (custom_instructions : String) :
    McqResult × List EngineCall :=
  if isBlank topic then
    (.err topicEmptyMsg topic, [])
  else if num_questions < 1 ∨ num_questions > 10 then
    (.err numQuestionsRangeMsg topic, [])
  else
    let req := mcqRequest topic num_questions difficulty_level custom_instructions
    match engine.generate_questions req with
    | .ok qs =>
        (.ok topic qs.questions.length difficulty_level
          (qs.questions.enum.map fun p =>
            { question_number := p.1 + 1
              question := p.2.question
              options := p.2.options
              correct_answer := p.2.correct_answer
              explanation := p.2.explanation }),
         [.qna req])
    | .error e => (.err e topic, [.qna req])

/-- The lesson request sent by `generate_lesson_plan`
(`learning_objectives or []`). -/
def lessonPlanRequest (topic : String) (duration : String)
    (grade_level : String) (learning_objectives : Option (List String)) :
    LessonRequest :=
  { topic := topic
    duration := duration
    grade_level := grade_level
    learning_objectives := some (learning_objectives.getD []) }

/-- `generate_lesson_plan(topic, duration, grade_level,
learning_objectives)`: validates the topic, calls
`content_engine.generate_lesson_plan`, and nests the full lesson plan in
the success mapping. -/
def generate_lesson_plan (engine : Engine) (topic : String)
    (duration : String) (grade_level : String)
    (learning_objectives : Option (List String)) :
    LessonPlanResult × List EngineCall :=
  if isBlank topic then
    (.err topicEmptyMsg topic, [])
  else
    let req := lessonPlanRequest topic duration grade_level learning_objectives
    match engine.generate_lesson_plan req with
    | .ok lesson => (.ok topic duration grade_level lesson, [.lesson req])
    | .error e => (.err e topic, [.lesson req])

/-- The `custom_template` prompt string of `generate_flashcards`,
verbatim (a Python triple-quoted literal; braces are the template's own
placeholders, not interpolated by the server). -/
def flashcardTemplate : String :=
  "\n                Generate {num} flashcards for the topic: {topic}\n                Difficulty level: {difficulty_level}\n                Card type: {card_type}\n                \n                Format each flashcard with:\n                - Front: Question or term\n                - Back: Answer or definition\n                - Category: Subject category\n                \n                Make sure the flashcards are educational and appropriate for the difficulty level.\n                "

/-- The qna request sent by `generate_flashcards`. -/
def flashcardsRequest (topic : String) (num_cards : Int)
    (difficulty_level : String) (card_type : String) : QnaRequest :=
  { topic := topic
    num := num_cards
    question_type := "Short Answer"
    difficulty_level := difficulty_level
    custom_instructions := some ("Create " ++ card_type ++ " flashcards")
    prompt_template := some flashcardTemplate }

/-- `generate_flashcards(topic, num_cards, difficulty_level, card_type)`:
validates the topic and the card count, calls
`qna_engine.generate_questions` with the flashcard prompt template, and
maps each returned question to a front/back card. -/
def generate_flashcards (engine : Engine) (topic : String) (num_cards : Int)
    (difficulty_level : String) (card_type : String) :
    FlashcardsResult × List EngineCall :=
  if isBlank topic then
    (.err topicEmptyMsg topic, [])
  else if num_cards < 1 ∨ num_cards > 20 then
    (.err numCardsRangeMsg topic, [])
  else
    let req := flashcardsRequest topic num_cards difficulty_level card_type
    match engine.generate_questions req with
    | .ok qs =>
        (.ok topic qs.questions.length difficulty_level card_type
          (qs.questions.enum.map fun p =>
            { card_number := p.1 + 1
              front := p.2.question
              back := p.2.correct_answer
              category := topic
              difficulty := difficulty_level }),
         [.qna req])
    | .error e => (.err e topic, [.qna req])

/-- `chr(10).join(strings)`: concatenation separated by a newline. -/
def joinWithNl : List String → String
  | [] => ""
  | [x] => x
  | x :: y :: xs => x ++ "\n" ++ joinWithNl (y :: xs)

/-- Sixteen spaces: the literal indentation inside the server's
triple-quoted f-strings. -/
def sp16 : String := "                "

/-- The lesson request sent by `get_topic_overview`
(duration `"Overview"`, grade level `"General"`, no objectives argument). -/
def overviewRequest (topic : String) : LessonRequest :=
  { topic := topic
    duration := "Overview"
    grade_level := "General"
    learning_objectives := none }

/-- The f-string returned by `get_topic_overview` on success, verbatim:
indented header lines, blank lines carrying the 16-space indent, and the
objectives and materials joined with `chr(10)` after a `• ` prefix. -/
def topicOverviewText (topic : String) (overview : LessonPlan) : String :=
  "\n" ++ sp16 ++ "Topic Overview: " ++ topic ++ "\n" ++ sp16 ++ "\n" ++
  sp16 ++ "Description: " ++ overview.introduction ++ "\n" ++ sp16 ++ "\n" ++
  sp16 ++ "Key Concepts:\n" ++ sp16 ++
  joinWithNl (overview.objectives.map fun obj => "• " ++ obj) ++
  "\n" ++ sp16 ++ "\n" ++
  sp16 ++ "Materials Needed:\n" ++ sp16 ++
  joinWithNl (overview.materials.map fun mat => "• " ++ mat) ++
  "\n" ++ sp16 ++ "\n" ++
  sp16 ++ "Assessment Methods:\n" ++ sp16 ++ overview.assessment ++
  "\n" ++ sp16

/-- Failure text of `get_topic_overview`. -/
def overviewErrorText (topic : String) (e : String) : String :=
  "Error retrieving overview for " ++ topic ++ ": " ++ e

/-- `get_topic_overview(topic)` (resource `educhain://topic/{topic}`):
no input validation; calls the content engine with fixed duration
`"Overview"` and grade level `"General"` and formats the response, or
renders the exception as failure text. -/
def get_topic_overview (engine : Engine) (topic : String) :
    String × List EngineCall :=
  let req := overviewRequest topic
  match engine.generate_lesson_plan req with
  | .ok overview => (topicOverviewText topic overview, [.lesson req])
  | .error e => (overviewErrorText topic e, [.lesson req])

/-- The qna request sent by `get_sample_questions`
(3 questions, multiple choice, medium difficulty, nothing else). -/
def sampleQuestionsRequest (topic : String) : QnaRequest :=
  { topic := topic
    num := 3
    question_type := "Multiple Choice"
    difficulty_level := "Medium"
    custom_instructions := none
    prompt_template := none }

/-- The inner loop of `get_sample_questions`: one `  {j}. {option}` line
appended per option, `j` counting 1-based over the enumerated options. -/
def renderOptionLines : List (Nat × String) → String
  | [] => ""
  | p :: ps => "  " ++ toString (p.1 + 1) ++ ". " ++ p.2 ++ "\n" ++ renderOptionLines ps

/-- The text appended for the `i`-th question (1-based) by
`get_sample_questions`'s loop: question line, numbered option lines,
correct-answer line, explanation line, blank separator. -/
def questionBlock (i : Nat) (q : Question) : String :=
  "Question " ++ toString i ++ ": " ++ q.question ++ "\n" ++
  renderOptionLines q.options.enum ++
  "Correct Answer: " ++ q.correct_answer ++ "\n" ++
  "Explanation: " ++ q.explanation ++ "\n\n"

/-- The outer loop of `get_sample_questions`: the blocks of the
enumerated questions, concatenated in order. -/
def renderBlocks : List (Nat × Question) → String
  | [] => ""
  | p :: ps => questionBlock (p.1 + 1) p.2 ++ renderBlocks ps

/-- Failure text of `get_sample_questions`. -/
def sampleQuestionsErrorText (topic : String) (e : String) : String :=
  "Error retrieving sample questions for " ++ topic ++ ": " ++ e

/-- `get_sample_questions(topic)` (resource `educhain://questions/{topic}`):
no input validation; requests 3 medium multiple-choice questions and
renders them, or renders the exception as failure text. -/
def get_sample_questions (engine : Engine) (topic : String) :
    String × List EngineCall :=
  let req := sampleQuestionsRequest topic
  match engine.generate_questions req with
  | .ok qs =>
      ("Sample Questions for: " ++ topic ++ "\n\n" ++ renderBlocks qs.questions.enum,
       [.qna req])
  | .error e => (sampleQuestionsErrorText topic e, [.qna req])

/-- The environment variable read at startup. -/
def googleApiKeyName : String := "GOOGLE_API_KEY"

/-- `ValueError("GOOGLE_API_KEY environment variable not set")`. -/
def apiKeyMissingMsg : String := "GOOGLE_API_KEY environment variable not set"

/-- `EduChainMCPServer._initialize_components`: reads `GOOGLE_API_KEY`
from the environment and raises when it is unset or empty (Python's
`if not api_key`); otherwise constructs the model, client and MCP server
(external constructors, modelled as succeeding). -/
def initializeComponents (env : String → Option String) : Except String Unit :=
  match env googleApiKeyName with
  | none => .error apiKeyMissingMsg
  | some k => if k = "" then .error apiKeyMissingMsg else .ok ()

/-- The tools and resources registered by `setup_tools` /
`setup_resources`. -/
structure ServerSetup where
  tools : List String
  resources : List String
deriving Repr, DecidableEq

/-- Server startup (`EduChainMCPServer()` then `run_server()`):
initialization runs first, inside `__init__`; only when it succeeds does
`run_server` register the three tools and the two resources. -/
def runServer (env : String → Option String) : Except String ServerSetup :=
  match initializeComponents env with
  | .error e => .error e
  | .ok _ =>
      .ok { tools := ["generate_mcq", "generate_lesson_plan", "generate_flashcards"]
            resources := ["educhain://topic/{topic}", "educhain://questions/{topic}"] }

/-!
Line-level machinery.  To state that a rendered text places items on
separate lines we split its character list at newline characters and
compare against an explicit list of lines.
-/

/-- Split a character list into its newline-separated lines
(`n` separators yield `n + 1` lines). -/
def splitNl : List Char → List (List Char)
  | [] => [[]]
  | c :: cs =>
    match splitNl cs with
    | [] => [[]]
    | l :: ls => if c = '\n' then [] :: l :: ls else (c :: l) :: ls

/-- Join lines with newline separators (left inverse of `splitNl` on
newline-free lines). -/
def joinNl : List (List Char) → List Char
  | [] => []
  | [l] => l
  | l :: l2 :: ls => l ++ '\n' :: joinNl (l2 :: ls)

/-- The lines of a string, as character lists. -/
def linesOf (s : String) : List (List Char) :=
  splitNl s.data

/-- The string contains no newline character. -/
def noNl (s : String) : Prop :=
  '\n' ∉ s.data

instance (s : String) : Decidable (noNl s) :=
  inferInstanceAs (Decidable ('\n' ∉ s.data))

/-- Every line followed by a newline, flattened to characters: the shape
of a text built by a loop appending `line ++ "\n"` at each step. -/
def withNlData : List String → List Char
  | [] => []
  | l :: ls => l.data ++ '\n' :: withNlData ls

/-!
Specification-level renderings: the same texts described as explicit
line lists, to be compared with the strings the code builds.
-/

/-- The lines contributed by one `chr(10).join(f"• {x}" ...)` interpolated
into an f-string line opening with indentation `ind`: with no items the
line is just the indentation; otherwise the first bulleted item shares
the indented line and each further item is its own `• `-prefixed line. -/
def bulletBlockLines (ind : String) (xs : List String) : List String :=
  match xs with
  | [] => [ind]
  | x :: rest => (ind ++ "• " ++ x) :: rest.map (fun y => "• " ++ y)

/-- The overview text of `get_topic_overview`, line by line: header,
introduction, bulleted objectives, bulleted materials, assessment. -/
def overviewLines (topic : String) (ov : LessonPlan) : List String :=
  ["", sp16 ++ "Topic Overview: " ++ topic, sp16,
   sp16 ++ "Description: " ++ ov.introduction, sp16,
   sp16 ++ "Key Concepts:"] ++
  bulletBlockLines sp16 ov.objectives ++
  [sp16, sp16 ++ "Materials Needed:"] ++
  bulletBlockLines sp16 ov.materials ++
  [sp16, sp16 ++ "Assessment Methods:", sp16 ++ ov.assessment, sp16]

/-- One numbered option line of `get_sample_questions`. -/
def optionLine (j : Nat) (opt : String) : String :=
  "  " ++ toString j ++ ". " ++ opt

/-- The text block of the `i`-th sample question as a line list:
question line, 1-based numbered option lines in order, correct-answer
line, explanation line, and the blank separator line. -/
def questionBlockLines (i : Nat) (q : Question) : List String :=
  ("Question " ++ toString i ++ ": " ++ q.question) ::
  (q.options.enum.map fun p => optionLine (p.1 + 1) p.2) ++
  ["Correct Answer: " ++ q.correct_answer, "Explanation: " ++ q.explanation, ""]

/-- The blocks of all enumerated questions, as one line list. -/
def blocksLines : List (Nat × Question) → List String
  | [] => []
  | p :: ps => questionBlockLines (p.1 + 1) p.2 ++ blocksLines ps

/-- The full `get_sample_questions` success text as a line list. -/
def sampleQuestionsLines (topic : String) (qs : List Question) : List String :=
  ("Sample Questions for: " ++ topic) :: "" :: (blocksLines qs.enum ++ [""])

/-- Erase the fields of a question that the flashcard mapping is claimed
to discard. -/
def scrubQuestion (q : Question) : Question :=
  { q with options := [], explanation := "" }

/-!
Concrete stub engines and environments, used to instantiate the
hypothesis-bearing theorems below.
-/

/-- A concrete well-formed question. -/
def stubQ1 : Question :=
  { question := "What is 2+2?"
    options := ["3", "4"]
    correct_answer := "4"
    explanation := "Basic addition" }

/-- A second concrete well-formed question. -/
def stubQ2 : Question :=
  { question := "Capital of France?"
    options := ["Paris"]
    correct_answer := "Paris"
    explanation := "Geography" }

/-- A concrete lesson plan response. -/
def stubLessonPlan : LessonPlan :=
  { title := "Fractions"
    objectives := ["obj one", "obj two"]
    materials := ["mat one"]
    introduction := "An intro"
    main_content := "Body"
    activities := ["Act"]
    assessment := "A quiz"
    conclusion := "Done" }

/-- A stub engine that answers every request successfully. -/
def stubEngineOk : Engine :=
  { generate_questions := fun _ => .ok { questions := [stubQ1, stubQ2] }
    generate_lesson_plan := fun _ => .ok stubLessonPlan }

/-- A stub engine that raises on every invocation. -/
def stubEngineErr : Engine :=
  { generate_questions := fun _ => .error ("engine boom")
    generate_lesson_plan := fun _ => .error ("engine boom") }

/-- A stub engine returning the scrubbed versions of `stubEngineOk`'s
questions. -/
def stubEngineScrubbed : Engine :=
  { generate_questions := fun _ => .ok { questions := [stubQ1, stubQ2].map scrubQuestion }
    generate_lesson_plan := fun _ => .ok stubLessonPlan }

/-- An environment with no variables set. -/
def emptyEnv : String → Option String := fun _ => none

/-- An environment with only the API key set. -/
def keyEnv : String → Option String :=
  fun v => if v = googleApiKeyName then some ("sk-test-123") else none

end EduChain

namespace EduChain

/-!
Lemmas about the line machinery.
-/

theorem splitNl_ne_nil (cs : List Char) : splitNl cs ≠ [] := by
  cases cs with
  | nil => simp [splitNl]
  | cons c cs =>
    simp only [splitNl]
    split
    next => simp
    next l ls heq => split <;> simp

theorem splitNl_no_nl {cs : List Char} (h : '\n' ∉ cs) : splitNl cs = [cs] := by
  induction cs with
  | nil => rfl
  | cons c cs ih =>
    have hc : ¬ (c = '\n') := by
      intro e
      exact h (e ▸ List.mem_cons_self c cs)
    have h2 : '\n' ∉ cs := fun m => h (List.mem_cons_of_mem c m)
    simp [splitNl, ih h2, hc]

theorem splitNl_append_nl {a : List Char} (b : List Char) (h : '\n' ∉ a) :
    splitNl (a ++ '\n' :: b) = a :: splitNl b := by
  induction a with
  | nil =>
    cases hb : splitNl b with
    | nil => exact absurd hb (splitNl_ne_nil b)
    | cons l ls => simp [splitNl, hb]
  | cons c cs ih =>
    have hc : ¬ (c = '\n') := by
      intro e
      exact h (e ▸ List.mem_cons_self c cs)
    have h2 : '\n' ∉ cs := fun m => h (List.mem_cons_of_mem c m)
    have h3 := ih h2
    simp only [List.cons_append, splitNl, List.append_eq, h3, hc, if_false]

theorem joinNl_cons (l : List Char) {L : List (List Char)} (h : L ≠ []) :
    joinNl (l :: L) = l ++ '\n' :: joinNl L := by
  cases L with
  | nil => exact absurd rfl h
  | cons a as => rfl

theorem splitNl_joinNl {L : List (List Char)} (hne : L ≠ [])
    (h : ∀ l ∈ L, '\n' ∉ l) : splitNl (joinNl L) = L := by
  induction L with
  | nil => exact absurd rfl hne
  | cons l ls ih =>
    cases ls with
    | nil => exact splitNl_no_nl (h l (List.mem_cons_self l []))
    | cons l2 ls2 =>
      rw [joinNl_cons l (by simp)]
      rw [splitNl_append_nl _ (h l (List.mem_cons_self _ _))]
      rw [ih (by simp) (fun x hx => h x (List.mem_cons_of_mem _ hx))]

theorem joinNl_append {L1 L2 : List (List Char)} (h1 : L1 ≠ []) (h2 : L2 ≠ []) :
    joinNl (L1 ++ L2) = joinNl L1 ++ '\n' :: joinNl L2 := by
  induction L1 with
  | nil => exact absurd rfl h1
  | cons a as ih =>
    cases as with
    | nil =>
      simp only [List.singleton_append, joinNl]
      rw [joinNl_cons a h2]
    | cons b bs =>
      rw [List.cons_append, joinNl_cons a (by simp), joinNl_cons a (by simp),
        ih (by simp)]
      simp

theorem digitChar_ne_nl (m : Nat) : Nat.digitChar m ≠ '\n' := by
  rcases Nat.lt_or_ge m 16 with h | h
  · interval_cases m <;> decide
  · unfold Nat.digitChar
    rw [if_neg (by omega : ¬ m = 0), if_neg (by omega : ¬ m = 1), if_neg (by omega : ¬ m = 2), if_neg (by omega : ¬ m = 3), if_neg (by omega : ¬ m = 4), if_neg (by omega : ¬ m = 5), if_neg (by omega : ¬ m = 6), if_neg (by omega : ¬ m = 7), if_neg (by omega : ¬ m = 8), if_neg (by omega : ¬ m = 9), if_neg (by omega : ¬ m = 10), if_neg (by omega : ¬ m = 11), if_neg (by omega : ¬ m = 12), if_neg (by omega : ¬ m = 13), if_neg (by omega : ¬ m = 14), if_neg (by omega : ¬ m = 15)]
    decide

theorem toDigitsCore_ne_nl (b : Nat) :
    ∀ (f n : Nat) (acc : List Char), (∀ c ∈ acc, c ≠ '\n') →
      ∀ c ∈ Nat.toDigitsCore b f n acc, c ≠ '\n' := by
  intro f
  induction f with
  | zero => intro n acc hacc c hc; exact hacc c hc
  | succ f ih =>
    intro n acc hacc c hc
    rw [Nat.toDigitsCore] at hc
    by_cases hd : n / b = 0
    · rw [if_pos hd] at hc
      rcases List.mem_cons.mp hc with h | h
      · exact h ▸ digitChar_ne_nl (n % b)
      · exact hacc c h
    · rw [if_neg hd] at hc
      refine ih (n / b) (Nat.digitChar (n % b) :: acc) ?_ c hc
      intro d hd2
      rcases List.mem_cons.mp hd2 with h | h
      · exact h ▸ digitChar_ne_nl (n % b)
      · exact hacc d h

theorem noNl_toString_nat (n : Nat) : noNl (toString n) := by
  show '\n' ∉ (toString n).data
  intro hmem
  have h : (toString n).data = Nat.toDigits 10 n := rfl
  rw [h, Nat.toDigits] at hmem
  exact toDigitsCore_ne_nl 10 (n + 1) n [] (by intro c hc; cases hc) '\n' hmem rfl

theorem noNl_append {a b : String} (ha : noNl a) (hb : noNl b) : noNl (a ++ b) := by
  show '\n' ∉ (a ++ b).data
  rw [String.data_append]
  intro hmem
  rcases List.mem_append.mp hmem with h | h
  · exact ha h
  · exact hb h

theorem data_joinWithNl (L : List String) :
    (joinWithNl L).data = joinNl (L.map String.data) := by
  induction L with
  | nil => rfl
  | cons x xs ih =>
    cases xs with
    | nil => rfl
    | cons y ys =>
      rw [joinWithNl, List.map_cons, joinNl_cons _ (by simp)]
      simp [String.data_append, ih]

theorem bulletBlockLines_ne_nil (ind : String) (xs : List String) :
    bulletBlockLines ind xs ≠ [] := by
  cases xs <;> simp [bulletBlockLines]

theorem joinNl_bulletBlock (ind : String) (xs : List String) :
    joinNl ((bulletBlockLines ind xs).map String.data) =
      ind.data ++ (joinWithNl (xs.map fun x => "• " ++ x)).data := by
  cases xs with
  | nil => simp [bulletBlockLines, joinWithNl, joinNl]
  | cons x rest =>
    cases rest with
    | nil => simp [bulletBlockLines, joinWithNl, joinNl, String.data_append]
    | cons y ys =>
      simp only [bulletBlockLines, List.map_cons]
      rw [joinNl_cons _ (by simp)]
      simp [String.data_append, data_joinWithNl, joinWithNl]

theorem topicOverviewText_data (t : String) (ov : LessonPlan) :
    (topicOverviewText t ov).data =
      joinNl ((overviewLines t ov).map String.data) := by
  rw [overviewLines]
  simp only [List.map_append, List.map_cons, List.map_nil, List.append_assoc,
    List.cons_append, List.nil_append]
  rw [joinNl_cons _ (by simp), joinNl_cons _ (by simp), joinNl_cons _ (by simp),
    joinNl_cons _ (by simp), joinNl_cons _ (by simp),
    joinNl_cons _ (by simp [bulletBlockLines_ne_nil])]
  rw [joinNl_append (by simp [bulletBlockLines_ne_nil]) (by simp),
    joinNl_bulletBlock]
  rw [joinNl_cons _ (by simp), joinNl_cons _ (by simp [bulletBlockLines_ne_nil])]
  rw [joinNl_append (by simp [bulletBlockLines_ne_nil]) (by simp),
    joinNl_bulletBlock]
  rw [joinNl_cons _ (by simp), joinNl_cons _ (by simp), joinNl_cons _ (by simp)]
  simp [topicOverviewText, String.data_append, joinNl]

theorem withNlData_append (L1 L2 : List String) :
    withNlData (L1 ++ L2) = withNlData L1 ++ withNlData L2 := by
  induction L1 with
  | nil => rfl
  | cons l ls ih => simp [withNlData, ih]

theorem joinNl_map_append (L : List String) {R : List (List Char)} (hR : R ≠ []) :
    joinNl (L.map String.data ++ R) = withNlData L ++ joinNl R := by
  induction L with
  | nil => simp [withNlData]
  | cons l ls ih =>
    rw [List.map_cons, List.cons_append,
      joinNl_cons _ (by simp [List.append_eq_nil, hR]), ih]
    simp [withNlData]

theorem renderOptionLines_data (ps : List (Nat × String)) :
    (renderOptionLines ps).data =
      withNlData (ps.map fun p => optionLine (p.1 + 1) p.2) := by
  induction ps with
  | nil => rfl
  | cons p ps ih =>
    simp [renderOptionLines, withNlData, String.data_append, ih, optionLine]

theorem questionBlock_data (i : Nat) (q : Question) :
    (questionBlock i q).data = withNlData (questionBlockLines i q) := by
  rw [questionBlock, questionBlockLines]
  simp [withNlData, withNlData_append, String.data_append, renderOptionLines_data]

theorem renderBlocks_data (ps : List (Nat × Question)) :
    (renderBlocks ps).data = withNlData (blocksLines ps) := by
  induction ps with
  | nil => rfl
  | cons p ps ih =>
    simp [renderBlocks, blocksLines, withNlData_append, String.data_append,
      questionBlock_data, ih]

theorem sampleText_data (topic : String) (qs : List Question) :
    ("Sample Questions for: " ++ topic ++ "\n\n" ++ renderBlocks qs.enum).data =
      joinNl ((sampleQuestionsLines topic qs).map String.data) := by
  rw [sampleQuestionsLines]
  simp only [List.map_cons, List.map_append, List.map_nil]
  rw [joinNl_cons _ (by simp), joinNl_cons _ (by simp [List.append_eq_nil])]
  rw [joinNl_map_append _ (by simp)]
  simp [String.data_append, renderBlocks_data, joinNl]

end EduChain

namespace EduChain

/-!
No-newline facts for the rendered line lists.
-/

theorem noNl_bulletBlock_mem (ind : String) (xs : List String) (hind : noNl ind)
    (h : ∀ x ∈ xs, noNl x) : ∀ l ∈ bulletBlockLines ind xs, noNl l := by
  cases xs with
  | nil =>
    intro l hl
    rw [bulletBlockLines] at hl
    rcases List.mem_singleton.mp hl with rfl
    exact hind
  | cons x rest =>
    intro l hl
    rw [bulletBlockLines] at hl
    rcases List.mem_cons.mp hl with rfl | hl
    · exact noNl_append (noNl_append hind (by decide)) (h x (List.mem_cons_self x rest))
    · rcases List.mem_map.mp hl with ⟨y, hy, rfl⟩
      exact noNl_append (by decide) (h y (List.mem_cons_of_mem x hy))

theorem noNl_overviewLines (t : String) (ov : LessonPlan) (ht : noNl t)
    (hi : noNl ov.introduction) (hobj : ∀ o ∈ ov.objectives, noNl o)
    (hmat : ∀ m ∈ ov.materials, noNl m) (ha : noNl ov.assessment) :
    ∀ l ∈ overviewLines t ov, noNl l := by
  have hsp : noNl sp16 := by decide
  rw [overviewLines]
  refine List.forall_mem_append.mpr ⟨List.forall_mem_append.mpr
    ⟨List.forall_mem_append.mpr ⟨List.forall_mem_append.mpr ⟨?_, ?_⟩, ?_⟩, ?_⟩, ?_⟩
  · simp only [List.forall_mem_cons]
    refine ⟨by decide, noNl_append (noNl_append hsp (by decide)) ht, hsp,
      noNl_append (noNl_append hsp (by decide)) hi, hsp,
      noNl_append hsp (by decide), ?_⟩
    intro l hl
    cases hl
  · exact noNl_bulletBlock_mem sp16 ov.objectives hsp hobj
  · simp only [List.forall_mem_cons]
    refine ⟨hsp, noNl_append hsp (by decide), ?_⟩
    intro l hl
    cases hl
  · exact noNl_bulletBlock_mem sp16 ov.materials hsp hmat
  · simp only [List.forall_mem_cons]
    refine ⟨hsp, noNl_append hsp (by decide),
      noNl_append hsp ha, hsp, ?_⟩
    intro l hl
    cases hl

theorem noNl_questionBlockLines (i : Nat) (q : Question) (h1 : noNl q.question)
    (h2 : ∀ o ∈ q.options, noNl o) (h3 : noNl q.correct_answer)
    (h4 : noNl q.explanation) : ∀ l ∈ questionBlockLines i q, noNl l := by
  rw [questionBlockLines]
  refine List.forall_mem_cons.mpr ⟨?_, ?_⟩
  · exact noNl_append
      (noNl_append (noNl_append (by decide) (noNl_toString_nat i)) (by decide)) h1
  · refine List.forall_mem_append.mpr ⟨?_, ?_⟩
    · intro l hl
      rcases List.mem_map.mp hl with ⟨p, hp, rfl⟩
      have hmem : p.2 ∈ q.options := by
        have hsnd := List.enum_map_snd q.options
        exact hsnd ▸ List.mem_map_of_mem Prod.snd hp
      refine noNl_append
        (noNl_append (noNl_append (by decide) (noNl_toString_nat (p.1 + 1))) (by decide))
        (h2 p.2 hmem)
    · simp only [List.forall_mem_cons]
      refine ⟨noNl_append (by decide) h3, noNl_append (by decide) h4, by decide, ?_⟩
      intro l hl
      cases hl

theorem noNl_blocksLines (ps : List (Nat × Question))
    (h : ∀ p ∈ ps, noNl p.2.question ∧ (∀ o ∈ p.2.options, noNl o) ∧
      noNl p.2.correct_answer ∧ noNl p.2.explanation) :
    ∀ l ∈ blocksLines ps, noNl l := by
  induction ps with
  | nil =>
    intro l hl
    cases hl
  | cons p ps ih =>
    intro l hl
    rw [blocksLines] at hl
    rcases List.mem_append.mp hl with hl | hl
    · obtain ⟨ha, hb, hc, hd⟩ := h p (List.mem_cons_self p ps)
      exact noNl_questionBlockLines (p.1 + 1) p.2 ha hb hc hd l hl
    · exact ih (fun x hx => h x (List.mem_cons_of_mem p hx)) l hl

theorem noNl_sampleQuestionsLines (topic : String) (qs : List Question)
    (ht : noNl topic)
    (h : ∀ q ∈ qs, noNl q.question ∧ (∀ o ∈ q.options, noNl o) ∧
      noNl q.correct_answer ∧ noNl q.explanation) :
    ∀ l ∈ sampleQuestionsLines topic qs, noNl l := by
  rw [sampleQuestionsLines]
  refine List.forall_mem_cons.mpr ⟨noNl_append (by decide) ht,
    List.forall_mem_cons.mpr ⟨by decide, List.forall_mem_append.mpr ⟨?_, ?_⟩⟩⟩
  · refine noNl_blocksLines qs.enum ?_
    intro p hp
    have hmem : p.2 ∈ qs := by
      have hsnd := List.enum_map_snd qs
      exact hsnd ▸ List.mem_map_of_mem Prod.snd hp
    exact h p.2 hmem
  · simp only [List.forall_mem_cons]
    refine ⟨by decide, ?_⟩
    intro l hl
    cases hl

/-- The flashcard list is unchanged when the engine's questions are
scrubbed of their options and explanations. -/
theorem flashcards_scrub_map (topic dl : String) (qs : List Question) (n : Nat) :
    ((qs.map scrubQuestion).enumFrom n).map
        (fun p => { card_number := p.1 + 1
                    front := p.2.question
                    back := p.2.correct_answer
                    category := topic
                    difficulty := dl : Flashcard })
      = (qs.enumFrom n).map
        (fun p => { card_number := p.1 + 1
                    front := p.2.question
                    back := p.2.correct_answer
                    category := topic
                    difficulty := dl : Flashcard }) := by
  induction qs generalizing n with
  | nil => rfl
  | cons q qs ih => simp [List.enumFrom, scrubQuestion, ih]

end EduChain

namespace EduChain

/-!
Claim theorems.
-/

/-- C1 (amended).  For every empty or all-whitespace topic, each of the
three tool-style operations (`generate_mcq`, `generate_lesson_plan`,
`generate_flashcards`) returns the failure mapping
`{success: false, error: "Topic cannot be empty", topic}` and makes no
engine call; the two resource-style operations perform no topic
validation and always make their single engine call, blank topic or not. -/
theorem blank_topic_behaviour (engine : Engine) (topic : String)
    (nq nc : Int) (dl ci dur gl ct : String) (lo : Option (List String))
    (hb : isBlank topic = true) :
    generate_mcq engine topic nq dl ci = (.err topicEmptyMsg topic, []) ∧
    generate_lesson_plan engine topic dur gl lo = (.err topicEmptyMsg topic, []) ∧
    generate_flashcards engine topic nc dl ct = (.err topicEmptyMsg topic, []) ∧
    (get_topic_overview engine topic).2 = [.lesson (overviewRequest topic)] ∧
    (get_sample_questions engine topic).2 = [.qna (sampleQuestionsRequest topic)] := by
  refine ⟨?_, ?_, ?_, ?_, ?_⟩
  · simp [generate_mcq, hb]
  · simp [generate_lesson_plan, hb]
  · simp [generate_flashcards, hb]
  · rw [get_topic_overview]
    cases h : engine.generate_lesson_plan (overviewRequest topic) <;> simp [h]
  · rw [get_sample_questions]
    cases h : engine.generate_questions (sampleQuestionsRequest topic) <;> simp [h]

/-- Witness for C1 (amended) at the blank topic `" "`. -/
theorem blank_topic_behaviour_witness :
    isBlank (" ") = true ∧
    (generate_mcq stubEngineOk (" ") 5 ("Medium") ("") = (.err topicEmptyMsg (" "), []) ∧
     generate_lesson_plan stubEngineOk (" ") ("45 minutes") ("High School") none =
       (.err topicEmptyMsg (" "), []) ∧
     generate_flashcards stubEngineOk (" ") 10 ("Medium") ("Definition") =
       (.err topicEmptyMsg (" "), []) ∧
     (get_topic_overview stubEngineOk (" ")).2 = [.lesson (overviewRequest (" "))] ∧
     (get_sample_questions stubEngineOk (" ")).2 = [.qna (sampleQuestionsRequest (" "))]) :=
  ⟨by decide,
   blank_topic_behaviour stubEngineOk (" ") 5 10 ("Medium") ("") ("45 minutes")
     ("High School") ("Definition") none (by decide)⟩

/-- C1 counterexample.  With a stub engine and the empty topic, both
resource-style operations do make an engine call, so the claim that for a
blank topic every operation fails without an external call is false. -/
theorem blank_topic_resource_counterexample :
    (get_topic_overview stubEngineOk ("")).2 ≠ [] ∧
    (get_sample_questions stubEngineOk ("")).2 ≠ [] := by
  exact ⟨by decide, by decide⟩

/-- C2.  Every exception raised by input validation (blank topic, count
out of range) or by the external engine call is caught and converted into
exactly `{success: false, error: the raised message, topic: the original
topic}`; in particular the error field equals the engine's message, so it
is non-empty whenever the engine raises a non-empty error. -/
theorem tool_failure_mapping (engine : Engine) (topic : String)
    (nq nc : Int) (dl ci dur gl ct : String) (lo : Option (List String))
    (e : String) :
    (isBlank topic = false → ¬(nq < 1 ∨ nq > 10) →
      engine.generate_questions (mcqRequest topic nq dl ci) = .error e →
      (generate_mcq engine topic nq dl ci).1 = .err e topic) ∧
    (isBlank topic = false →
      engine.generate_lesson_plan (lessonPlanRequest topic dur gl lo) = .error e →
      (generate_lesson_plan engine topic dur gl lo).1 = .err e topic) ∧
    (isBlank topic = false → ¬(nc < 1 ∨ nc > 20) →
      engine.generate_questions (flashcardsRequest topic nc dl ct) = .error e →
      (generate_flashcards engine topic nc dl ct).1 = .err e topic) ∧
    (isBlank topic = true →
      (generate_mcq engine topic nq dl ci).1 = .err topicEmptyMsg topic ∧
      (generate_lesson_plan engine topic dur gl lo).1 = .err topicEmptyMsg topic ∧
      (generate_flashcards engine topic nc dl ct).1 = .err topicEmptyMsg topic) ∧
    (isBlank topic = false → (nq < 1 ∨ nq > 10) →
      (generate_mcq engine topic nq dl ci).1 = .err numQuestionsRangeMsg topic) ∧
    (isBlank topic = false → (nc < 1 ∨ nc > 20) →
      (generate_flashcards engine topic nc dl ct).1 = .err numCardsRangeMsg topic) := by
  refine ⟨?_, ?_, ?_, ?_, ?_, ?_⟩
  · intro hb hr he
    simp [generate_mcq, hb, hr, he]
  · intro hb he
    simp [generate_lesson_plan, hb, he]
  · intro hb hr he
    simp [generate_flashcards, hb, hr, he]
  · intro hb
    exact ⟨by simp [generate_mcq, hb], by simp [generate_lesson_plan, hb],
      by simp [generate_flashcards, hb]⟩
  · intro hb hr
    simp [generate_mcq, hb, hr]
  · intro hb hr
    simp [generate_flashcards, hb, hr]

/-- Witness for C2: a stub engine that raises `"engine boom"`. -/
theorem tool_failure_mapping_witness :
    (generate_mcq stubEngineErr ("Algebra") 5 ("Medium") ("")).1 =
      .err ("engine boom") ("Algebra") ∧
    (generate_lesson_plan stubEngineErr ("Algebra") ("45 minutes") ("High School") none).1 =
      .err ("engine boom") ("Algebra") ∧
    (generate_flashcards stubEngineErr ("Algebra") 10 ("Medium") ("Definition")).1 =
      .err ("engine boom") ("Algebra") := by
  obtain ⟨h1, h2, h3, _h4, _h5, _h6⟩ :=
    tool_failure_mapping stubEngineErr ("Algebra") 5 10 ("Medium") ("")
      ("45 minutes") ("High School") ("Definition") none ("engine boom")
  exact ⟨h1 (by decide) (by decide) rfl, h2 (by decide) rfl, h3 (by decide) (by decide) rfl⟩

/-- C3.  For every `num_questions` outside `[1, 10]`, `generate_mcq`
returns a `success: false` mapping and makes no engine call; for every
`num_questions` inside `[1, 10]` (and a non-blank topic) the range check
passes and the engine call is made. -/
theorem mcq_range_check (engine : Engine) (topic : String) (nq : Int)
    (dl ci : String) :
    ((nq < 1 ∨ nq > 10) →
      (generate_mcq engine topic nq dl ci).1.success = false ∧
      (generate_mcq engine topic nq dl ci).2 = []) ∧
    (isBlank topic = false → 1 ≤ nq → nq ≤ 10 →
      (generate_mcq engine topic nq dl ci).2 = [.qna (mcqRequest topic nq dl ci)]) := by
  constructor
  · intro hr
    by_cases hb : isBlank topic
    · simp [generate_mcq, hb, McqResult.success]
    · simp [generate_mcq, hb, hr, McqResult.success]
  · intro hb h1 h2
    have hr : ¬(nq < 1 ∨ nq > 10) := by omega
    cases he : engine.generate_questions (mcqRequest topic nq dl ci) <;>
      simp [generate_mcq, hb, hr, he]

/-- Witness for C3 at `num_questions = 0` (out of range) and `= 5` (in range). -/
theorem mcq_range_check_witness :
    ((generate_mcq stubEngineOk ("Algebra") 0 ("Medium") ("")).1.success = false ∧
     (generate_mcq stubEngineOk ("Algebra") 0 ("Medium") ("")).2 = []) ∧
    (generate_mcq stubEngineOk ("Algebra") 5 ("Medium") ("")).2 =
      [.qna (mcqRequest ("Algebra") 5 ("Medium") (""))] :=
  ⟨(mcq_range_check stubEngineOk ("Algebra") 0 ("Medium") ("")).1 (by decide),
   (mcq_range_check stubEngineOk ("Algebra") 5 ("Medium") ("")).2 (by decide)
     (by decide) (by decide)⟩

/-- C4.  For every `num_cards` outside `[1, 20]`, `generate_flashcards`
returns a `success: false` mapping and makes no engine call; for every
`num_cards` inside `[1, 20]` (and a non-blank topic) the range check
passes and the engine call is made. -/
theorem flashcards_range_check (engine : Engine) (topic : String) (nc : Int)
    (dl ct : String) :
    ((nc < 1 ∨ nc > 20) →
      (generate_flashcards engine topic nc dl ct).1.success = false ∧
      (generate_flashcards engine topic nc dl ct).2 = []) ∧
    (isBlank topic = false → 1 ≤ nc → nc ≤ 20 →
      (generate_flashcards engine topic nc dl ct).2 =
        [.qna (flashcardsRequest topic nc dl ct)]) := by
  constructor
  · intro hr
    by_cases hb : isBlank topic
    · simp [generate_flashcards, hb, FlashcardsResult.success]
    · simp [generate_flashcards, hb, hr, FlashcardsResult.success]
  · intro hb h1 h2
    have hr : ¬(nc < 1 ∨ nc > 20) := by omega
    cases he : engine.generate_questions (flashcardsRequest topic nc dl ct) <;>
      simp [generate_flashcards, hb, hr, he]

/-- Witness for C4 at `num_cards = 21` (out of range) and `= 10` (in range). -/
theorem flashcards_range_check_witness :
    ((generate_flashcards stubEngineOk ("Algebra") 21 ("Medium") ("Definition")).1.success = false ∧
     (generate_flashcards stubEngineOk ("Algebra") 21 ("Medium") ("Definition")).2 = []) ∧
    (generate_flashcards stubEngineOk ("Algebra") 10 ("Medium") ("Definition")).2 =
      [.qna (flashcardsRequest ("Algebra") 10 ("Medium") ("Definition"))] :=
  ⟨(flashcards_range_check stubEngineOk ("Algebra") 21 ("Medium") ("Definition")).1 (by decide),
   (flashcards_range_check stubEngineOk ("Algebra") 10 ("Medium") ("Definition")).2
     (by decide) (by decide) (by decide)⟩

end EduChain

namespace EduChain

/-- C5.  With valid inputs and an engine response of `N` well-formed
items, `generate_mcq` returns a success mapping whose `questions` list has
exactly `N` entries in engine order, the `i`-th entry (1-based) carrying
`question_number = i` and the question, options, correct answer and
explanation copied verbatim from the `i`-th engine item, and whose
`num_questions` field is `N`, the actual returned count. -/
theorem mcq_success_mapping (engine : Engine) (topic : String) (nq : Int)
    (dl ci : String) (qs : List Question)
    (hb : isBlank topic = false) (h1 : 1 ≤ nq) (h2 : nq ≤ 10)
    (hok : engine.generate_questions (mcqRequest topic nq dl ci) =
      .ok { questions := qs }) :
    ∃ L : List McqItem,
      (generate_mcq engine topic nq dl ci).1 = .ok topic qs.length dl L ∧
      L.length = qs.length ∧
      ∀ i q, qs[i]? = some q →
        L[i]? = some { question_number := i + 1
                       question := q.question
                       options := q.options
                       correct_answer := q.correct_answer
                       explanation := q.explanation : McqItem } := by
  have hr : ¬(nq < 1 ∨ nq > 10) := by omega
  refine ⟨qs.enum.map fun p =>
    { question_number := p.1 + 1
      question := p.2.question
      options := p.2.options
      correct_answer := p.2.correct_answer
      explanation := p.2.explanation }, ?_, ?_, ?_⟩
  · simp [generate_mcq, hb, hr, hok]
  · simp [List.enum_length]
  · intro i q hq
    rw [List.getElem?_map, List.getElem?_enum, hq]
    rfl

/-- Witness for C5: two stub items requested as five — the returned
count is the actual one. -/
theorem mcq_success_mapping_witness :
    ∃ L : List McqItem,
      (generate_mcq stubEngineOk ("Photosynthesis") 5 ("Easy") ("")).1 =
        .ok ("Photosynthesis") 2 ("Easy") L ∧
      L.length = 2 ∧
      ∀ i q, [stubQ1, stubQ2][i]? = some q →
        L[i]? = some { question_number := i + 1
                       question := q.question
                       options := q.options
                       correct_answer := q.correct_answer
                       explanation := q.explanation : McqItem } :=
  mcq_success_mapping stubEngineOk ("Photosynthesis") 5 ("Easy") ("")
    ([stubQ1, stubQ2]) (by decide) (by decide) (by decide) rfl

/-- C6.  `get_topic_overview` requests the lesson plan with the literal
duration `"Overview"` and grade level `"General"`, and (for newline-free
engine fields) its text splits into exactly the lines of
`overviewLines`: every objective and every material on its own
`• `-prefixed line in engine order, with the introduction and assessment
embedded verbatim. -/
theorem topic_overview_rendering (engine : Engine) (topic : String)
    (ov : LessonPlan)
    (hok : engine.generate_lesson_plan (overviewRequest topic) = .ok ov)
    (ht : noNl topic) (hi : noNl ov.introduction)
    (hobj : ∀ o ∈ ov.objectives, noNl o) (hmat : ∀ m ∈ ov.materials, noNl m)
    (ha : noNl ov.assessment) :
    (overviewRequest topic).duration = "Overview" ∧
    (overviewRequest topic).grade_level = "General" ∧
    (get_topic_overview engine topic).2 = [.lesson (overviewRequest topic)] ∧
    (get_topic_overview engine topic).1 = topicOverviewText topic ov ∧
    linesOf (get_topic_overview engine topic).1 =
      (overviewLines topic ov).map String.data := by
  have hres : get_topic_overview engine topic =
      (topicOverviewText topic ov, [.lesson (overviewRequest topic)]) := by
    simp [get_topic_overview, hok]
  refine ⟨rfl, rfl, by rw [hres], by rw [hres], ?_⟩
  rw [hres]
  show splitNl (topicOverviewText topic ov).data = _
  rw [topicOverviewText_data]
  refine splitNl_joinNl ?_ ?_
  · simp [overviewLines]
  · intro l hl
    rcases List.mem_map.mp hl with ⟨s, hs, rfl⟩
    exact noNl_overviewLines topic ov ht hi hobj hmat ha s hs

/-- Witness for C6 with the stub lesson plan. -/
theorem topic_overview_rendering_witness :
    (overviewRequest ("Math")).duration = "Overview" ∧
    (overviewRequest ("Math")).grade_level = "General" ∧
    (get_topic_overview stubEngineOk ("Math")).2 = [.lesson (overviewRequest ("Math"))] ∧
    (get_topic_overview stubEngineOk ("Math")).1 = topicOverviewText ("Math") stubLessonPlan ∧
    linesOf (get_topic_overview stubEngineOk ("Math")).1 =
      (overviewLines ("Math") stubLessonPlan).map String.data :=
  topic_overview_rendering stubEngineOk ("Math") stubLessonPlan rfl (by decide)
    (by decide) (by decide) (by decide) (by decide)

/-- C7.  `get_sample_questions` always requests exactly 3 multiple-choice
items at `"Medium"` difficulty (and always makes that one call); a
successful response renders (for newline-free fields) into exactly the
lines of `sampleQuestionsLines`: per item a question line, 1-based
numbered option lines in order, a correct-answer line, an explanation
line, and a blank separator line; an exception yields text beginning
`"Error retrieving sample questions for {topic}: "` followed by the
message. -/
theorem sample_questions_rendering (engine : Engine) (topic : String)
    (qs : List Question) (e : String) :
    (sampleQuestionsRequest topic).num = 3 ∧
    (sampleQuestionsRequest topic).question_type = "Multiple Choice" ∧
    (sampleQuestionsRequest topic).difficulty_level = "Medium" ∧
    (get_sample_questions engine topic).2 = [.qna (sampleQuestionsRequest topic)] ∧
    (engine.generate_questions (sampleQuestionsRequest topic) = .ok { questions := qs } →
      noNl topic →
      (∀ q ∈ qs, noNl q.question ∧ (∀ o ∈ q.options, noNl o) ∧
        noNl q.correct_answer ∧ noNl q.explanation) →
      linesOf (get_sample_questions engine topic).1 =
        (sampleQuestionsLines topic qs).map String.data) ∧
    (engine.generate_questions (sampleQuestionsRequest topic) = .error e →
      (get_sample_questions engine topic).1 =
        "Error retrieving sample questions for " ++ topic ++ ": " ++ e) := by
  refine ⟨rfl, rfl, rfl, ?_, ?_, ?_⟩
  · rw [get_sample_questions]
    cases h : engine.generate_questions (sampleQuestionsRequest topic) <;> simp [h]
  · intro hok ht hq
    have hres : (get_sample_questions engine topic).1 =
        "Sample Questions for: " ++ topic ++ "\n\n" ++ renderBlocks qs.enum := by
      simp [get_sample_questions, hok]
    rw [hres]
    show splitNl _ = _
    rw [sampleText_data]
    refine splitNl_joinNl (by simp [sampleQuestionsLines]) ?_
    intro l hl
    rcases List.mem_map.mp hl with ⟨s, hs, rfl⟩
    exact noNl_sampleQuestionsLines topic qs ht hq s hs
  · intro he
    simp [get_sample_questions, he, sampleQuestionsErrorText]

/-- Witness for C7: the success rendering with the stub questions and the
failure text with the raising stub. -/
theorem sample_questions_rendering_witness :
    linesOf (get_sample_questions stubEngineOk ("Geometry")).1 =
      (sampleQuestionsLines ("Geometry") [stubQ1, stubQ2]).map String.data ∧
    (get_sample_questions stubEngineErr ("Geometry")).1 =
      "Error retrieving sample questions for " ++ ("Geometry") ++ ": " ++ ("engine boom") :=
  ⟨(sample_questions_rendering stubEngineOk ("Geometry") ([stubQ1, stubQ2]) ("")).2.2.2.2.1
     rfl (by decide) (by decide),
   (sample_questions_rendering stubEngineErr ("Geometry") [] ("engine boom")).2.2.2.2.2 rfl⟩

/-- C8.  With valid inputs and an engine response of `N` short-answer
items, `generate_flashcards` returns a success mapping of `N` cards, the
`i`-th (1-based) carrying `card_number = i`, `front` the item's question
text, `back` the item's correct answer, `category` the topic and
`difficulty` the difficulty level; the items' options and explanations
influence nothing — scrubbing them from the engine response leaves the
result unchanged. -/
theorem flashcards_mapping (engine : Engine) (topic : String) (nc : Int)
    (dl ct : String) (qs : List Question)
    (hb : isBlank topic = false) (h1 : 1 ≤ nc) (h2 : nc ≤ 20)
    (hok : engine.generate_questions (flashcardsRequest topic nc dl ct) =
      .ok { questions := qs }) :
    ∃ L : List Flashcard,
      (generate_flashcards engine topic nc dl ct).1 = .ok topic qs.length dl ct L ∧
      L.length = qs.length ∧
      (∀ i q, qs[i]? = some q →
        L[i]? = some { card_number := i + 1
                       front := q.question
                       back := q.correct_answer
                       category := topic
                       difficulty := dl : Flashcard }) ∧
      (∀ engine2 : Engine,
        engine2.generate_questions (flashcardsRequest topic nc dl ct) =
          .ok { questions := qs.map scrubQuestion } →
        (generate_flashcards engine2 topic nc dl ct).1 =
          (generate_flashcards engine topic nc dl ct).1) := by
  have hr : ¬(nc < 1 ∨ nc > 20) := by omega
  refine ⟨qs.enum.map fun p =>
    { card_number := p.1 + 1
      front := p.2.question
      back := p.2.correct_answer
      category := topic
      difficulty := dl }, ?_, ?_, ?_, ?_⟩
  · simp [generate_flashcards, hb, hr, hok]
  · simp [List.enum_length]
  · intro i q hq
    rw [List.getElem?_map, List.getElem?_enum, hq]
    rfl
  · intro engine2 hok2
    simp only [generate_flashcards, hb, hr, hok, hok2]
    simp only [List.length_map, List.enum]
    rw [flashcards_scrub_map]

/-- Witness for C8 with the stub questions. -/
theorem flashcards_mapping_witness :
    ∃ L : List Flashcard,
      (generate_flashcards stubEngineOk ("Biology") 10 ("Hard") ("Definition")).1 =
        .ok ("Biology") 2 ("Hard") ("Definition") L ∧
      L.length = 2 ∧
      (∀ i q, [stubQ1, stubQ2][i]? = some q →
        L[i]? = some { card_number := i + 1
                       front := q.question
                       back := q.correct_answer
                       category := ("Biology")
                       difficulty := ("Hard") : Flashcard }) ∧
      (∀ engine2 : Engine,
        engine2.generate_questions (flashcardsRequest ("Biology") 10 ("Hard") ("Definition")) =
          .ok { questions := [stubQ1, stubQ2].map scrubQuestion } →
        (generate_flashcards engine2 ("Biology") 10 ("Hard") ("Definition")).1 =
          (generate_flashcards stubEngineOk ("Biology") 10 ("Hard") ("Definition")).1) :=
  flashcards_mapping stubEngineOk ("Biology") 10 ("Hard") ("Definition")
    ([stubQ1, stubQ2]) (by decide) (by decide) (by decide) rfl

/-- C9.  When `GOOGLE_API_KEY` is absent from the environment, startup
fails with the diagnostic naming the variable and no tool or resource is
ever registered; when a non-empty key is present, startup proceeds and
registers the three tools and the two resources. -/
theorem startup_requires_api_key (env : String → Option String) :
    (env googleApiKeyName = none →
      runServer env = .error apiKeyMissingMsg ∧ ∀ s, runServer env ≠ .ok s) ∧
    (∀ k, env googleApiKeyName = some k → k ≠ "" →
      runServer env =
        .ok { tools := ["generate_mcq", "generate_lesson_plan", "generate_flashcards"]
              resources := ["educhain://topic/{topic}", "educhain://questions/{topic}"] }) := by
  constructor
  · intro hnone
    have h : runServer env = .error apiKeyMissingMsg := by
      simp [runServer, initializeComponents, hnone]
    refine ⟨h, ?_⟩
    intro s hs
    rw [h] at hs
    cases hs
  · intro k hk hne
    simp [runServer, initializeComponents, hk, hne]

/-- Witness for C9: the empty environment and a keyed environment. -/
theorem startup_requires_api_key_witness :
    runServer emptyEnv = .error apiKeyMissingMsg ∧
    runServer keyEnv =
      .ok { tools := ["generate_mcq", "generate_lesson_plan", "generate_flashcards"]
            resources := ["educhain://topic/{topic}", "educhain://questions/{topic}"] } :=
  ⟨((startup_requires_api_key emptyEnv).1 rfl).1,
   (startup_requires_api_key keyEnv).2 ("sk-test-123") (by decide) (by decide)⟩

/-- C10.  The blank-topic check precedes the count-range check: when the
topic is blank and the count is also out of range, the failure message is
`"Topic cannot be empty"`, not the range message. -/
theorem topic_check_precedes_range_check (engine : Engine) (topic : String)
    (nq nc : Int) (dl ci ct : String) (hb : isBlank topic = true) :
    ((nq < 1 ∨ nq > 10) →
      (generate_mcq engine topic nq dl ci).1 = .err topicEmptyMsg topic) ∧
    ((nc < 1 ∨ nc > 20) →
      (generate_flashcards engine topic nc dl ct).1 = .err topicEmptyMsg topic) := by
  constructor
  · intro hr
    simp [generate_mcq, hb]
  · intro hr
    simp [generate_flashcards, hb]

/-- Witness for C10 at the blank topic `" "` with out-of-range counts. -/
theorem topic_check_precedes_range_check_witness :
    (generate_mcq stubEngineOk (" ") 0 ("Medium") ("")).1 = .err topicEmptyMsg (" ") ∧
    (generate_flashcards stubEngineOk (" ") 25 ("Medium") ("Definition")).1 =
      .err topicEmptyMsg (" ") := by
  obtain ⟨h1, h2⟩ := topic_check_precedes_range_check stubEngineOk (" ") 0 25
    ("Medium") ("") ("Definition") (by decide)
  exact ⟨h1 (by decide), h2 (by decide)⟩

end EduChain
